import Mathlib

/-
Verification of the process bootstrap in src/src-tauri/src/main.rs.

The source file is:

  line 1   // Prevents additional console window on Windows in release, DO NOT REMOVE!!
  line 2   a crate attribute: cfg_attr(not(debug_assertions), windows_subsystem is windows)
  line 4   mod app;
  line 6   an item attribute on main: cfg_attr(mobile, tauri mobile entry point)
  line 7-9 fn main() { app::run(); }

We embed the build configuration surface (the two cfg flags), the item
attributes they conditionally attach, and the body of fn main as a small
fragment of Rust statements and expressions, with a trace semantics that is
parameterised by the behaviour of the external collaborator app::run
(whose own source is outside this snapshot and is treated as an abstract
environment transformer with an abstract outcome).
-/

namespace OpenCodeUI

/-- Target operating systems a Tauri crate is built for. -/
inductive Platform
  | windows
  | macos
  | linux
  | android
  | ios
deriving DecidableEq

/-- The cfg alias mobile that line 6 tests holds exactly on the mobile targets. -/
def Platform.isMobile : Platform → Bool
  | Platform.android => true
  | Platform.ios => true
  | _ => false

/-- The build-time configuration visible to the two cfg_attr attributes of the
source: the debug_assertions flag of the chosen profile and the target OS. -/
structure BuildConfig where
  debug_assertions : Bool
  target_os : Platform
deriving DecidableEq

/-- Whether this build targets a mobile platform (the cfg alias mobile). -/
def BuildConfig.mobile (c : BuildConfig) : Bool := c.target_os.isMobile

/-- The two link-time subsystems a Windows executable can declare. -/
inductive Subsystem
  | console
  | windows
deriving DecidableEq

/-- Line 2 of main.rs: the crate attribute attaches subsystem windows exactly
when debug_assertions is off, and attaches nothing otherwise. -/
def windowsSubsystemAttr (c : BuildConfig) : Option Subsystem :=
  if c.debug_assertions then none else some Subsystem.windows

/-- Which targets attach a console to a launched program by default: a Windows
binary without a subsystem attribute gets a console window (the situation the
comment on line 1 of main.rs describes); the others launch GUI programs with
no attached terminal. -/
def attachesConsoleByDefault : Platform → Bool
  | Platform.windows => true
  | _ => false

/-- Whether the produced executable has a console attached: on Windows the
subsystem chosen by line 2 decides (subsystem windows suppresses the console,
no attribute leaves the console default); elsewhere the attribute is inert and
the platform default stands. A function of the build configuration alone. -/
def consoleAttached (c : BuildConfig) : Bool :=
  if c.target_os = Platform.windows then
    match windowsSubsystemAttr c with
    | some Subsystem.windows => false
    | _ => true
  else attachesConsoleByDefault c.target_os

/-- How the entry operation is reached: as the conventional process main, or
registered with the mobile platform host and invoked by it. -/
inductive EntryMechanism
  | processMain
  | hostInvoked
deriving DecidableEq

/-- Line 6 of main.rs: the tauri mobile entry point attribute is attached to
fn main exactly when the cfg alias mobile holds. -/
def mobileEntryPointAttr (c : BuildConfig) : Bool := c.mobile

/-- The entry registration the build produces: with the mobile entry point
attribute attached, main is exported for host invocation; without it, main is
the conventional process entry point. -/
def entryMechanism (c : BuildConfig) : EntryMechanism :=
  if mobileEntryPointAttr c then EntryMechanism.hostInvoked else EntryMechanism.processMain

/-- A Rust path, as its list of segments: app::run is the list of the two
segments app and run. -/
abbrev RPath := List String

/-- Argument expressions. The one call of main.rs passes none; the grammar
still records an argument list so that the claim that no arguments are passed
is a statement, not a typing accident. -/
inductive RArg
  | unitLit
  | strLit (s : String)
deriving DecidableEq

/-- The expressions of the fragment of Rust the bootstrap layer could use:
a path call, and the process-environment touching primitives of std that the
frame claims are about (command-line arguments, environment variables, files).
fn main uses only the first. -/
inductive RExpr
  | call (path : RPath) (args : List RArg)
  | readCliArgs
  | readEnvVar (name : String)
  | writeEnvVar (name : String) (val : String)
  | readFile (path : String)
  | writeFile (path : String) (data : String)
deriving DecidableEq

/-- Statements: an expression statement discards the value of its expression. -/
inductive RStmt
  | exprStmt (e : RExpr)
deriving DecidableEq

/-- A function item: name, parameter list, body. -/
structure FnItem where
  name : String
  params : List String
  body : List RStmt
deriving DecidableEq

/-- Lines 7 to 9 of main.rs: fn main() { app::run(); } — no parameters, and a
body of exactly one expression statement, a call of the path app::run with an
empty argument list. -/
def mainFn : FnItem :=
  { name := "main"
    params := []
    body := [RStmt.exprStmt (RExpr.call ["app", "run"] [])] }

/-- Line 4 of main.rs: mod app; — the modules this crate declares at its root. -/
def declaredModules : List String := ["app"]

/-- Runtime values of the fragment. -/
inductive Value
  | unit
  | str (s : String)
  | strs (l : List String)
deriving DecidableEq

/-- How an invocation of the external collaborator app::run can end: it
returns some value, unwinds with a panic, or never returns. -/
inductive RunOutcome
  | returns (v : Value)
  | panics (msg : String)
  | diverges
deriving DecidableEq

/-- The events observable at the bootstrap boundary. -/
inductive Event
  | call (path : RPath) (args : List Value)
  | readCliArgs
  | readEnvVar (name : String)
  | writeEnvVar (name : String) (val : String)
  | readFile (path : String)
  | writeFile (path : String) (data : String)
deriving DecidableEq

/-- How evaluating a piece of the bootstrap ends. linkError marks a call of a
path the crate does not resolve; in Rust it would already be rejected at
compile time, so a correct embedding never produces it. -/
inductive ExecResult
  | ok (v : Value)
  | panicked (msg : String)
  | divergent
  | linkError (path : RPath)
deriving DecidableEq

/-- The parts of the process environment the frame claims quantify over. -/
structure ProcessEnv where
  cliArgs : List String
  vars : List (String × String)
  files : List (String × String)
deriving DecidableEq

/-- The abstract behaviour of app::run: from the process environment at the
moment of the call it produces the environment after its own effects and an
outcome. Nothing else about the unseen module is assumed. -/
abbrev ExtRuntime := ProcessEnv → ProcessEnv × RunOutcome

/-- Argument expressions evaluate to values without effects. -/
def evalArg : RArg → Value
  | RArg.unitLit => Value.unit
  | RArg.strLit s => Value.str s

/-- Lookup in an association list, empty string when absent. -/
def lookupStr (l : List (String × String)) (n : String) : String :=
  (((l.find? (fun p => p.1 == n)).map Prod.snd).getD "")

/-- Evaluate one expression: the result is the process environment after it,
the trace of boundary events it emitted, and how it ended. The only path this
crate resolves to a callee is app::run (the run function of the module that
line 4 declares); calling it emits one call event carrying the argument
values and then behaves as the external runtime does. -/
def evalExpr (rt : ExtRuntime) (env : ProcessEnv) :
    RExpr → ProcessEnv × List Event × ExecResult
  | RExpr.call p args =>
    let vs := args.map evalArg
    if p = ["app", "run"] then
      match rt env with
      | (env2, RunOutcome.returns v) => (env2, [Event.call p vs], ExecResult.ok v)
      | (env2, RunOutcome.panics m) => (env2, [Event.call p vs], ExecResult.panicked m)
      | (env2, RunOutcome.diverges) => (env2, [Event.call p vs], ExecResult.divergent)
    else (env, [], ExecResult.linkError p)
  | RExpr.readCliArgs => (env, [Event.readCliArgs], ExecResult.ok (Value.strs env.cliArgs))
  | RExpr.readEnvVar n =>
    (env, [Event.readEnvVar n], ExecResult.ok (Value.str (lookupStr env.vars n)))
  | RExpr.writeEnvVar n v =>
    ({ env with vars := (n, v) :: env.vars }, [Event.writeEnvVar n v], ExecResult.ok Value.unit)
  | RExpr.readFile p =>
    (env, [Event.readFile p], ExecResult.ok (Value.str (lookupStr env.files p)))
  | RExpr.writeFile p d =>
    ({ env with files := (p, d) :: env.files }, [Event.writeFile p d], ExecResult.ok Value.unit)

/-- An expression statement discards the value of its expression and yields
unit; a panic or divergence passes through unchanged. -/
def evalStmt (rt : ExtRuntime) (env : ProcessEnv) :
    RStmt → ProcessEnv × List Event × ExecResult
  | RStmt.exprStmt e =>
    match evalExpr rt env e with
    | (env2, tr, ExecResult.ok _) => (env2, tr, ExecResult.ok Value.unit)
    | (env2, tr, r) => (env2, tr, r)

/-- A block of statements runs in order, stopping at the first statement that
does not finish normally. -/
def evalBody (rt : ExtRuntime) (env : ProcessEnv) :
    List RStmt → ProcessEnv × List Event × ExecResult
  | [] => (env, [], ExecResult.ok Value.unit)
  | s :: ss =>
    match evalStmt rt env s with
    | (env2, tr, ExecResult.ok _) =>
      match evalBody rt env2 ss with
      | (env3, tr2, r) => (env3, tr ++ tr2, r)
    | (env2, tr, r) => (env2, tr, r)

/-- Run a function item: its body in the given environment. -/
def execFn (rt : ExtRuntime) (env : ProcessEnv) (f : FnItem) :
    ProcessEnv × List Event × ExecResult :=
  evalBody rt env f.body

/-- One invocation of the process entry point fn main. -/
def execMain (rt : ExtRuntime) (env : ProcessEnv) : ProcessEnv × List Event × ExecResult :=
  execFn rt env mainFn

/-- The observable summary of how main ends as a function of how app::run
ends: a returned value, whatever it was, is discarded and main returns unit;
a panic propagates with its message unmodified; divergence stays divergence. -/
def RunOutcome.toMainResult : RunOutcome → ExecResult
  | RunOutcome.returns _ => ExecResult.ok Value.unit
  | RunOutcome.panics m => ExecResult.panicked m
  | RunOutcome.diverges => ExecResult.divergent

/-- What the build of the crate under a configuration fixes: the subsystem
chosen by the line 2 attribute, the entry registration chosen by the line 6
attribute, and the entry function item itself. The two cfg_attr attributes
only attach attributes; neither rewrites the item they sit on, so the entry
function item is the same mainFn in every configuration. -/
structure ElaboratedCrate where
  subsystem : Option Subsystem
  entry : EntryMechanism
  entryFn : FnItem
deriving DecidableEq

/-- Build the crate under a configuration. -/
def buildCrate (c : BuildConfig) : ElaboratedCrate :=
  { subsystem := windowsSubsystemAttr c
    entry := entryMechanism c
    entryFn := mainFn }

/-- The two observable states of the bootstrap. -/
inductive BootState
  | NotStarted
  | Running
deriving DecidableEq

/-- Whether an event is the invocation of the external entry function. -/
def isAppRunCall : Event → Bool
  | Event.call p _ => p = ["app", "run"]
  | _ => false

/-- The bootstrap state after a list of emitted events: Running exactly once
the external entry function has been invoked. -/
def stateAfter (tr : List Event) : BootState :=
  if tr.any isAppRunCall then BootState.Running else BootState.NotStarted

/-- The sequence of bootstrap states observed along a trace: the state after
each of its prefixes, the empty one included. -/
def stateSeq (tr : List Event) : List BootState :=
  (List.range (tr.length + 1)).map (fun i => stateAfter (tr.take i))

/-- Whether an event touches the process environment directly (command-line
arguments, environment variables, files) rather than delegating. -/
def Event.touchesProcessState : Event → Bool
  | Event.call _ _ => false
  | _ => true

/-- The process exit status an execution result implies: normal completion
exits through the success convention, a propagated panic through the runtime
abort convention, and a divergent or ill-formed execution never exits. -/
def exitCode : ExecResult → Option Nat
  | ExecResult.ok _ => some 0
  | ExecResult.panicked _ => some 101
  | ExecResult.divergent => none
  | ExecResult.linkError _ => none

/-- The paths called by the statements of a function body. -/
def calleePaths (f : FnItem) : List RPath :=
  (f.body.map (fun s =>
    match s with
    | RStmt.exprStmt (RExpr.call p _) => [p]
    | _ => [])).flatten

/-- A concrete external runtime for witnesses: no effects, returns unit. -/
def runtimeOk : ExtRuntime := fun env => (env, RunOutcome.returns Value.unit)

/-- A concrete process environment for witnesses. -/
def baseEnv : ProcessEnv := { cliArgs := [], vars := [], files := [] }

/-- Unfolding an invocation of main: the environment after it is exactly the
one app::run produced from the unchanged initial environment, the trace is
the one no-argument call event, and the result is the outcome of app::run
summarised by toMainResult. -/
theorem execMain_eq (rt : ExtRuntime) (env : ProcessEnv) :
    execMain rt env = ((rt env).1, [Event.call ["app", "run"] []], ((rt env).2).toMainResult) := by
  rcases h : rt env with ⟨env2, out⟩
  cases out <;>
    simp [execMain, execFn, mainFn, evalBody, evalStmt, evalExpr, h, RunOutcome.toMainResult]

/-- Claim C1: every invocation of the process entry point performs exactly one
call, of app::run, with an empty argument list, with no other boundary event
before or after it, and does not consume the call's result: main's result is
the outcome summary toMainResult, which discards every returned value. -/
theorem main_single_delegation (rt : ExtRuntime) (env : ProcessEnv) :
    (execMain rt env).2.1 = [Event.call ["app", "run"] []] ∧
    (execMain rt env).2.2 = ((rt env).2).toMainResult := by
  rw [execMain_eq]
  exact ⟨rfl, rfl⟩

/-- Claim C2: on every platform that attaches a console by default, the built
executable has a console attached exactly when the build is a debug build;
and every debug build leaves the platform default untouched. The choice is a
function of the build configuration alone. -/
theorem console_attached_iff_debug (c : BuildConfig) :
    (attachesConsoleByDefault c.target_os = true → consoleAttached c = c.debug_assertions) ∧
    (c.debug_assertions = true → consoleAttached c = attachesConsoleByDefault c.target_os) := by
  rcases c with ⟨d, p⟩
  cases d <;> cases p <;> decide

theorem console_attached_iff_debug_witness :
    attachesConsoleByDefault Platform.windows = true ∧
    consoleAttached { debug_assertions := true, target_os := Platform.windows } = true :=
  ⟨by decide, by
    have h :=
      (console_attached_iff_debug
        { debug_assertions := true, target_os := Platform.windows }).1 (by decide)
    simpa using h⟩

/-- Claim C3: the entry operation is registered through the mobile host
invocation mechanism exactly on mobile-target builds, and is the conventional
process entry point exactly on the others. -/
theorem entry_mechanism_matches_target (c : BuildConfig) :
    (entryMechanism c = EntryMechanism.hostInvoked ↔ c.mobile = true) ∧
    (entryMechanism c = EntryMechanism.processMain ↔ c.mobile = false) := by
  rcases c with ⟨d, p⟩
  cases d <;> cases p <;> decide

theorem entry_mechanism_matches_target_witness :
    entryMechanism { debug_assertions := true, target_os := Platform.android } =
      EntryMechanism.hostInvoked ∧
    entryMechanism { debug_assertions := true, target_os := Platform.linux } =
      EntryMechanism.processMain :=
  ⟨(entry_mechanism_matches_target
      { debug_assertions := true, target_os := Platform.android }).1.mpr (by decide),
   (entry_mechanism_matches_target
      { debug_assertions := true, target_os := Platform.linux }).2.mpr (by decide)⟩

/-- Claim C4: the bootstrap has no failure of its own: main ends in a panic
with a given message exactly when app::run panicked with that message, and an
unresolved-callee failure is impossible. -/
theorem main_cannot_fail_itself (rt : ExtRuntime) (env : ProcessEnv) (m : String) :
    ((execMain rt env).2.2 = ExecResult.panicked m ↔ (rt env).2 = RunOutcome.panics m) ∧
    (∀ p, ((execMain rt env).2.2 = ExecResult.linkError p) ↔ False) := by
  rw [execMain_eq]
  cases h2 : (rt env).2 <;> simp [RunOutcome.toMainResult, h2]

theorem main_cannot_fail_itself_witness :
    ¬ (execMain runtimeOk baseEnv).2.2 = ExecResult.panicked "x" :=
  fun hx => by
    have h := (main_cannot_fail_itself runtimeOk baseEnv "x").1.mp hx
    simp [runtimeOk] at h

/-- Claim C5: the entry function embedded in the crate is one and the same
item under every build configuration, and the execution of that item is the
same for any two configurations: the subsystem and registration choices have
no runtime representation. -/
theorem entry_behavior_uniform (c1 c2 : BuildConfig) (rt : ExtRuntime) (env : ProcessEnv) :
    (buildCrate c1).entryFn = (buildCrate c2).entryFn ∧
    execFn rt env (buildCrate c1).entryFn = execFn rt env (buildCrate c2).entryFn :=
  ⟨rfl, rfl⟩

/-- Claim C6: along every invocation of main, the observed state sequence is
exactly NotStarted followed by Running: the single transition is taken by the
one invocation of the external entry function, and no later event leaves
Running or invokes it a second time. -/
theorem boot_state_machine (rt : ExtRuntime) (env : ProcessEnv) :
    stateSeq (execMain rt env).2.1 = [BootState.NotStarted, BootState.Running] ∧
    ((execMain rt env).2.1.countP isAppRunCall) = 1 := by
  rw [execMain_eq]
  constructor
  · show stateSeq [Event.call ["app", "run"] []] = [BootState.NotStarted, BootState.Running]
    decide
  · show List.countP isAppRunCall [Event.call ["app", "run"] []] = 1
    decide

/-- Claim C7: the bootstrap itself consumes no command-line arguments, reads
or writes no environment variables or files (its trace holds no event that
touches process state directly), and the process environment after main is
exactly the one app::run produced from the untouched initial environment. -/
theorem main_frame_condition (rt : ExtRuntime) (env : ProcessEnv) :
    (execMain rt env).1 = (rt env).1 ∧
    ((execMain rt env).2.1.all (fun e => ! e.touchesProcessState)) = true := by
  rw [execMain_eq]
  refine ⟨rfl, ?_⟩
  show ([Event.call ["app", "run"] []].all (fun e => ! e.touchesProcessState)) = true
  decide

/-- Claim C8: whenever app::run returns normally, main returns unit and the
process exit status is the platform success code; the bootstrap sets no exit
code of its own. -/
theorem exit_follows_runtime_completion (rt : ExtRuntime) (env : ProcessEnv) (v : Value)
    (h : (rt env).2 = RunOutcome.returns v) :
    (execMain rt env).2.2 = ExecResult.ok Value.unit ∧
    exitCode (execMain rt env).2.2 = some 0 := by
  rw [execMain_eq, h]
  exact ⟨rfl, rfl⟩

theorem exit_follows_runtime_completion_witness :
    (runtimeOk baseEnv).2 = RunOutcome.returns Value.unit ∧
    ((execMain runtimeOk baseEnv).2.2 = ExecResult.ok Value.unit ∧
      exitCode (execMain runtimeOk baseEnv).2.2 = some 0) :=
  ⟨rfl, exit_follows_runtime_completion runtimeOk baseEnv Value.unit rfl⟩

/-- Claim C9: the bootstrap body adds no divergence of its own: if the
delegated call does not diverge, the invocation of main does not diverge. -/
theorem main_terminates_with_runtime (rt : ExtRuntime) (env : ProcessEnv)
    (h : ¬ (rt env).2 = RunOutcome.diverges) :
    ¬ (execMain rt env).2.2 = ExecResult.divergent := by
  rw [execMain_eq]
  intro hx
  cases h2 : (rt env).2 with
  | returns v => rw [h2] at hx; simp [RunOutcome.toMainResult] at hx
  | panics m => rw [h2] at hx; simp [RunOutcome.toMainResult] at hx
  | diverges => exact h h2

theorem main_terminates_with_runtime_witness :
    (¬ (runtimeOk baseEnv).2 = RunOutcome.diverges) ∧
    (¬ (execMain runtimeOk baseEnv).2.2 = ExecResult.divergent) :=
  ⟨by decide, main_terminates_with_runtime runtimeOk baseEnv (by decide)⟩

/-- Claim C10: the only path the body of main calls is app::run, a single
fixed two-segment path whose leading segment is the module that line 4 of
main.rs declares inside this same crate: the delegation is a statically
resolved intra-crate call, not a discovered or configurable interface. -/
theorem delegation_static_intra_crate :
    calleePaths mainFn = [["app", "run"]] ∧
    (["app", "run"].headD "") ∈ declaredModules := by
  exact ⟨rfl, by decide⟩

end OpenCodeUI
